import Mathlib

/-!
Verification development for the `stl_reader` ASCII STL parser
(`stl_reader.cpp` / `triangle_mesh.hpp`).

Shallow embedding notes:
* C++ `double` arithmetic is idealised as exact real arithmetic (`ℝ`);
  the tolerance `EPS = 0.001` dominates every comparison in the source.
* Functions that can `throw runtime_error` are embedded as
  `Except Err _`; the distinct throw sites are distinguished by the
  constructors of `Err` (following the error taxonomy the code's
  messages describe).
* `STLParser::to_triangle_mesh` iterates a token counter `cnt` over the
  token vector.  The loop is embedded as recursion over the suffix of
  tokens not yet consumed (the suffix `tokens.drop cnt`); every index
  access in the source is at `cnt`, `cnt+1`, `cnt+2` or `cnt+3`, i.e.
  relative to that suffix, so the two views coincide.
* `std::stod` is embedded as `stod : String → Option ℚ`, parsing a
  decimal literal prefix (sign, digits, fractional part, exponent;
  the hex/inf/nan forms are irrelevant to every token the grammar
  feeds to it).  `none` models the `invalid_argument` throw.
-/

/-- The tolerance used by every floating-point comparison in the source
(`const double EPS = 0.001;`). -/
def EPS : ℝ := 0.001

/-- `struct Point` — three coordinates, used both as vertex and vector. -/
structure Point where
  x : ℝ
  y : ℝ
  z : ℝ

/-- `Point::operator-` (componentwise subtraction). -/
instance : Sub Point := ⟨fun a b => ⟨a.x - b.x, a.y - b.y, a.z - b.z⟩⟩

/-- `Point::operator==` — tolerance-based componentwise equality. -/
def Point.eq (a b : Point) : Prop :=
  |b.x - a.x| < EPS ∧ |b.y - a.y| < EPS ∧ |b.z - a.z| < EPS

/-- `Point::operator!=` — negation of the tolerance equality. -/
def Point.ne (a b : Point) : Prop := ¬ Point.eq a b

/-- `cross_product` (free function in `stl_reader.cpp`). -/
def cross_product (p q : Point) : Point :=
  ⟨p.y * q.z - p.z * q.y, p.z * q.x - p.x * q.z, p.x * q.y - p.y * q.x⟩

/-- `norm` — Euclidean length. -/
noncomputable def norm (p : Point) : ℝ :=
  Real.sqrt (p.x * p.x + p.y * p.y + p.z * p.z)

/-- The error taxonomy: one constructor per kind of `runtime_error`
thrown by the source (grammar violations carry the site's message). -/
inductive Err where
  | degenerateVector
  | tooManyVertices
  | insufficientVertices
  | invalidTriangle
  | grammarViolation (msg : String)
  | coordinateParseError
  | unterminatedSolid
deriving DecidableEq

/-- `unit_vector` — normalizes `p`, throwing on a near-zero norm. -/
noncomputable def unit_vector (p : Point) : Except Err Point :=
  if |norm p| < EPS then .error .degenerateVector
  else .ok ⟨p.x / norm p, p.y / norm p, p.z / norm p⟩

/-- `class Triangle` — vertex list plus stored facet normal. -/
structure Triangle where
  vertices : List Point
  facet_normal : Point

/-- `Triangle::Triangle()` — empty vertex list, zero normal. -/
def Triangle.init : Triangle := ⟨[], ⟨0, 0, 0⟩⟩

/-- `Triangle::add_vertex` — appends while fewer than 3 vertices are
stored, throws on a fourth vertex. -/
def Triangle.add_vertex (t : Triangle) (vertex : Point) : Except Err Triangle :=
  if t.vertices.length < 3 then .ok { t with vertices := t.vertices ++ [vertex] }
  else .error .tooManyVertices

/-- `Triangle::clear_vertices` — empties the vertex list only (the
stored facet normal is untouched). -/
def Triangle.clear_vertices (t : Triangle) : Triangle := { t with vertices := [] }

open Classical in
/-- `Triangle::set_facet_normal` — the source's acceptance test is
literally `(1.0 - fabs(norm(normal))) < EPS` (no absolute value around
the difference); otherwise the argument is normalized first. -/
noncomputable def Triangle.set_facet_normal (t : Triangle) (normal : Point) :
    Except Err Triangle :=
  if 1 - |norm normal| < EPS then .ok { t with facet_normal := normal }
  else
    match unit_vector normal with
    | .ok u => .ok { t with facet_normal := u }
    | .error e => .error e

/-- `Triangle::calculate_facet_normal` — right-hand-rule normal from
the three vertices, normalized; throws when the count is not 3. -/
noncomputable def Triangle.calculate_facet_normal (t : Triangle) : Except Err Point :=
  if h : t.vertices.length = 3 then
    unit_vector (cross_product
      (t.vertices.get ⟨1, by omega⟩ - t.vertices.get ⟨0, by omega⟩)
      (t.vertices.get ⟨2, by omega⟩ - t.vertices.get ⟨0, by omega⟩))
  else .error .insufficientVertices

open Classical in
/-- `Triangle::check_triangle` — vertex-count check, then comparison of
the computed and the stored facet normals.  The call to
`calculate_facet_normal` can throw (via `unit_vector`), and the source
does not catch that, so the result type is `Except`. -/
noncomputable def Triangle.check_triangle (t : Triangle) : Except Err Bool :=
  if t.vertices.length ≠ 3 then .ok false
  else
    match t.calculate_facet_normal with
    | .error e => .error e
    | .ok p => if Point.ne p t.facet_normal then .ok false else .ok true

/-- `class TriangleMesh` — name, triangle list, and a separately
maintained `long triangle_count`. -/
structure TriangleMesh where
  name : String
  triangles : List Triangle
  triangle_count : ℤ

/-- `TriangleMesh::TriangleMesh()` — empty list, count 0 (the `name`
member is default-initialised to the empty string). -/
def TriangleMesh.init : TriangleMesh := ⟨"", [], 0⟩

/-- `TriangleMesh::set_name`. -/
def TriangleMesh.set_name (m : TriangleMesh) (n : String) : TriangleMesh :=
  { m with name := n }

/-- `TriangleMesh::add_triangle` — appends and increments the count when
`check_triangle` reports valid; throws `invalidTriangle` when the check
reports invalid; a throw inside the check propagates. -/
noncomputable def TriangleMesh.add_triangle (m : TriangleMesh) (tri : Triangle) :
    Except Err TriangleMesh :=
  match tri.check_triangle with
  | .error e => .error e
  | .ok true =>
      .ok { m with triangles := m.triangles ++ [tri],
                   triangle_count := m.triangle_count + 1 }
  | .ok false => .error .invalidTriangle

/-- Digit run to a natural number (helper for `stod`). -/
def digitsToNat : List Char → Nat → Nat
  | [], acc => acc
  | c :: cs, acc => digitsToNat cs (acc * 10 + (c.toNat - 48))

/-- `std::stod` on a token: parses a decimal floating-point prefix
(optional sign, digits, optional fraction, optional exponent) and
ignores trailing characters, exactly as `strtod` does; `none` models
the `invalid_argument` throw when no digits can be consumed.  The
hex/inf/nan forms accepted by `strtod` are not modelled (no token the
grammar feeds to `stod` uses them). -/
def stod (s : String) : Option ℚ :=
  let cs := s.toList
  let sgnrest : ℚ × List Char :=
    match cs with
    | '-' :: r => (-1, r)
    | '+' :: r => (1, r)
    | _ => (1, cs)
  let ds := sgnrest.2.takeWhile Char.isDigit
  let cs2 := sgnrest.2.dropWhile Char.isDigit
  let fsrest : List Char × List Char :=
    match cs2 with
    | '.' :: r => (r.takeWhile Char.isDigit, r.dropWhile Char.isDigit)
    | _ => ([], cs2)
  let fs := fsrest.1
  if ds.isEmpty ∧ fs.isEmpty then none
  else
    let mant : ℚ :=
      sgnrest.1 * ((digitsToNat ds 0 : ℚ) + (digitsToNat fs 0 : ℚ) / 10 ^ fs.length)
    match fsrest.2 with
    | 'e' :: r | 'E' :: r =>
      let esgnrest : Bool × List Char :=
        match r with
        | '-' :: r2 => (true, r2)
        | '+' :: r2 => (false, r2)
        | _ => (false, r)
      let es := esgnrest.2.takeWhile Char.isDigit
      if es.isEmpty then some mant
      else if esgnrest.1 then some (mant / 10 ^ digitsToNat es 0)
      else some (mant * 10 ^ digitsToNat es 0)
    | _ => some mant

/-- `STLParser::parse_coordinates` — given the token vector and a start
index, requires three tokens at `i`, `i+1`, `i+2` (the source condition
`token_cnt + 2 < tokens.size()`) and parses all three with `stod`; any
failure collapses to the single coordinate-parse error. -/
def parse_coordinates (toks : List String) (i : Nat) : Except Err Point :=
  match toks.drop i with
  | a :: b :: c :: _ =>
    match stod a, stod b, stod c with
    | some cx, some cy, some cz => .ok ⟨(cx : ℝ), (cy : ℝ), (cz : ℝ)⟩
    | _, _, _ => .error .coordinateParseError
  | _ => .error .coordinateParseError

/-- The parsing states (`enum {OUTSIDE = 0, SOLID, FACET, NORMAL,
NORMAL_COORD, OUTER, LOOP, END}`). -/
inductive PState where
  | OUTSIDE
  | SOLID
  | FACET
  | NORMAL
  | NORMAL_COORD
  | OUTER
  | LOOP
  | END
deriving DecidableEq

/-- The `while (cnt < tokens.size())` loop of
`STLParser::to_triangle_mesh`, as recursion over the unconsumed token
suffix (`rem = tokens.drop cnt`).  Returning `.ok (st, mesh)` models the
loop exiting with final state `st`; `.error e` models a throw escaping
the loop.  Every token access of the source is relative to `cnt`, so
`parse_coordinates` is invoked on the suffix:
`parse_coordinates(cnt)` becomes `parse_coordinates rem 0` and
`parse_coordinates(cnt+1)` becomes `parse_coordinates rem 1`; the
advances `cnt += 3` / `cnt += 4` become `rem.drop 3` / `rem.drop 4`.
The `END` case models `cnt = tokens.size()` by recursing on `[]`. -/
noncomputable def loopAux :
    List String → PState → Triangle → TriangleMesh →
    Except Err (PState × TriangleMesh)
  | [], st, _, mesh => .ok (st, mesh)
  | tok :: rest, st, tri, mesh =>
    match st with
    | .OUTSIDE =>
      if tok = "solid" then
        match h : rest with
        | [] => .error (.grammarViolation "could not parse solids name")
        | nm :: rest2 =>
          if nm = "facet" then loopAux rest .SOLID tri (mesh.set_name "no name")
          else loopAux rest2 .SOLID tri (mesh.set_name nm)
      else loopAux rest .OUTSIDE tri mesh
    | .SOLID =>
      if tok = "facet" then loopAux rest .FACET tri mesh
      else if tok = "endsolid" then loopAux rest .END tri mesh
      else .error (.grammarViolation "keyword facet or keyword endsolid expected, but not found")
    | .FACET =>
      if tok = "normal" then loopAux rest .NORMAL tri mesh
      else if tok = "endfacet" then loopAux rest .SOLID tri mesh
      else .error (.grammarViolation "double keyword facet normal is not complete")
    | .NORMAL =>
      match parse_coordinates (tok :: rest) 0 with
      | .error e => .error e
      | .ok facet_normal =>
        match tri.set_facet_normal facet_normal with
        | .error e => .error e
        | .ok tri2 => loopAux ((tok :: rest).drop 3) .NORMAL_COORD tri2 mesh
    | .NORMAL_COORD =>
      if tok = "outer" then loopAux rest .OUTER tri mesh
      else .error (.grammarViolation "keyword outer loop is not complete or missing")
    | .OUTER =>
      if tok = "loop" then loopAux rest .LOOP tri mesh
      else .error (.grammarViolation "keyword outer loop is not complete or missing")
    | .LOOP =>
      if tok = "vertex" then
        match parse_coordinates (tok :: rest) 1 with
        | .error e => .error e
        | .ok vertex =>
          match tri.add_vertex vertex with
          | .error e => .error e
          | .ok tri2 => loopAux ((tok :: rest).drop 4) .LOOP tri2 mesh
      else if tok = "endloop" then
        match tri.check_triangle with
        | .error e => .error e
        | .ok true =>
          match mesh.add_triangle tri with
          | .error e => .error e
          | .ok mesh2 => loopAux rest .FACET tri.clear_vertices mesh2
        | .ok false => .error .invalidTriangle
      else .error (.grammarViolation "invalid outer loop segment")
    | .END => loopAux [] .END tri mesh
termination_by rem _ _ _ => rem.length
decreasing_by
  all_goals simp_wf
  all_goals first
    | omega
    | (have hl := congrArg List.length h; simp at hl; omega)

/-- The body of `STLParser::to_triangle_mesh` after tokenization: run
the state machine from `OUTSIDE` with fresh working triangle and mesh;
after the loop, `state != END` throws the unterminated-solid error,
otherwise the working mesh is the result. -/
noncomputable def to_triangle_mesh (toks : List String) : Except Err TriangleMesh :=
  match loopAux toks .OUTSIDE Triangle.init TriangleMesh.init with
  | .error e => .error e
  | .ok (st, mesh) => if st = .END then .ok mesh else .error .unterminatedSolid

/-- The caller-visible contract of `void to_triangle_mesh(TriangleMesh&)`:
the output binding `mesh` is assigned (`mesh = std::move(mesh_tmp)`)
only after the `state != END` check, on the success path; on a throw the
binding is untouched and the error escapes. -/
noncomputable def to_triangle_mesh_out (toks : List String) (mesh : TriangleMesh) :
    TriangleMesh × Option Err :=
  match to_triangle_mesh toks with
  | .ok m => (m, none)
  | .error e => (mesh, some e)

/-- Tokenization: `read_content` plus the `istream_iterator<string>`
construction split the file contents on whitespace into the token
vector (empty runs produce no tokens). -/
def tokenize (content : String) : List String :=
  (content.split fun c => c.isWhitespace).filter (· ≠ "")

/-! ## Concrete inputs used by witnesses and counterexamples

`goodTri` is the triangle of the canonical well-formed facet
(vertices (0,0,0), (1,0,0), (0,1,0), declared normal (0,0,1), which is
exactly the right-hand-rule normal).  `degenTri` has three collinear
vertices, so its cross product is the zero vector.  `exNoEnd` is the
token stream of a file with `solid`, one well-formed facet, and no
`endsolid`. -/

def goodTri : Triangle := ⟨[⟨0, 0, 0⟩, ⟨1, 0, 0⟩, ⟨0, 1, 0⟩], ⟨0, 0, 1⟩⟩

def degenTri : Triangle := ⟨[⟨0, 0, 0⟩, ⟨1, 0, 0⟩, ⟨2, 0, 0⟩], ⟨0, 0, 1⟩⟩

def exNoEnd : List String :=
  ["solid", "s", "facet", "normal", "0", "0", "1", "outer", "loop",
   "vertex", "0", "0", "0", "vertex", "1", "0", "0", "vertex", "0", "1", "0",
   "endloop", "endfacet"]

theorem Point.sub_def (a b : Point) : a - b = ⟨a.x - b.x, a.y - b.y, a.z - b.z⟩ := rfl

/-! ## Evaluation lemmas for the geometric primitives -/

theorem pt_norm_nonneg (p : Point) : 0 ≤ norm p := Real.sqrt_nonneg _

theorem pt_norm_eval (p : Point) (r : ℝ) (h0 : 0 ≤ r)
    (h : p.x * p.x + p.y * p.y + p.z * p.z = r * r) : norm p = r := by
  show Real.sqrt (p.x * p.x + p.y * p.y + p.z * p.z) = r
  rw [h, Real.sqrt_mul_self h0]

theorem pt_norm_000 : norm (⟨0, 0, 0⟩ : Point) = 0 :=
  pt_norm_eval _ _ le_rfl (by norm_num)

theorem pt_norm_001 : norm (⟨0, 0, 1⟩ : Point) = 1 :=
  pt_norm_eval _ _ (by norm_num) (by norm_num)

theorem pt_norm_002 : norm (⟨0, 0, 2⟩ : Point) = 2 :=
  pt_norm_eval _ _ (by norm_num) (by norm_num)

theorem pt_norm_half : norm (⟨0.5, 0, 0⟩ : Point) = 0.5 :=
  pt_norm_eval _ _ (by norm_num) (by norm_num)

theorem pt_norm_0999 : norm (⟨0.999, 0, 0⟩ : Point) = 0.999 :=
  pt_norm_eval _ _ (by norm_num) (by norm_num)

/-- Storing branch of `set_facet_normal`: whenever the source's test
`1.0 - fabs(norm(normal)) < EPS` holds, the argument is stored as-is. -/
theorem set_facet_normal_as_is (t : Triangle) (p : Point) (h : 1 - |norm p| < EPS) :
    t.set_facet_normal p = .ok { t with facet_normal := p } := by
  unfold Triangle.set_facet_normal
  rw [if_pos h]

/-- Normalizing branch of `set_facet_normal`. -/
theorem set_facet_normal_renorm (t : Triangle) (p : Point)
    (h1 : ¬ (1 - |norm p| < EPS)) (h2 : ¬ (|norm p| < EPS)) :
    t.set_facet_normal p =
      .ok { t with facet_normal := ⟨p.x / norm p, p.y / norm p, p.z / norm p⟩ } := by
  unfold Triangle.set_facet_normal unit_vector
  rw [if_neg h1, if_neg h2]

theorem set_facet_normal_001 (t : Triangle) :
    t.set_facet_normal ⟨0, 0, 1⟩ = .ok { t with facet_normal := ⟨0, 0, 1⟩ } := by
  apply set_facet_normal_as_is
  rw [pt_norm_001]
  norm_num [EPS]

theorem unit_vector_001 : unit_vector ⟨0, 0, 1⟩ = .ok ⟨0, 0, 1⟩ := by
  unfold unit_vector
  rw [pt_norm_001, if_neg (by norm_num [EPS])]
  norm_num

theorem unit_vector_000 : unit_vector ⟨0, 0, 0⟩ = .error .degenerateVector := by
  unfold unit_vector
  rw [pt_norm_000, if_pos (by norm_num [EPS])]

/-! ## Evaluation lemmas on the two concrete triangles -/

theorem calc_goodTri : goodTri.calculate_facet_normal = .ok ⟨0, 0, 1⟩ := by
  have h : cross_product ((⟨1, 0, 0⟩ : Point) - ⟨0, 0, 0⟩) ((⟨0, 1, 0⟩ : Point) - ⟨0, 0, 0⟩)
      = (⟨0, 0, 1⟩ : Point) := by
    simp only [cross_product, Point.sub_def]
    norm_num
  show unit_vector (cross_product
    ((⟨1, 0, 0⟩ : Point) - ⟨0, 0, 0⟩) ((⟨0, 1, 0⟩ : Point) - ⟨0, 0, 0⟩)) = .ok ⟨0, 0, 1⟩
  rw [h, unit_vector_001]

open Classical in
theorem check_goodTri : goodTri.check_triangle = .ok true := by
  have hne : ¬ Point.ne (⟨0, 0, 1⟩ : Point) goodTri.facet_normal := by
    simp only [Point.ne, Point.eq, goodTri, not_not]
    norm_num [EPS]
  unfold Triangle.check_triangle
  rw [if_neg (by simp [goodTri]), calc_goodTri]
  show (if Point.ne (⟨0, 0, 1⟩ : Point) goodTri.facet_normal
        then (Except.ok false : Except Err Bool) else Except.ok true) = Except.ok true
  rw [if_neg hne]

theorem add_goodTri (m : TriangleMesh) :
    m.add_triangle goodTri =
      .ok { m with triangles := m.triangles ++ [goodTri],
                   triangle_count := m.triangle_count + 1 } := by
  unfold TriangleMesh.add_triangle
  rw [check_goodTri]

theorem calc_degenTri : degenTri.calculate_facet_normal = .error .degenerateVector := by
  have h : cross_product ((⟨1, 0, 0⟩ : Point) - ⟨0, 0, 0⟩) ((⟨2, 0, 0⟩ : Point) - ⟨0, 0, 0⟩)
      = (⟨0, 0, 0⟩ : Point) := by
    simp only [cross_product, Point.sub_def]
    norm_num
  show unit_vector (cross_product
    ((⟨1, 0, 0⟩ : Point) - ⟨0, 0, 0⟩) ((⟨2, 0, 0⟩ : Point) - ⟨0, 0, 0⟩)) = .error .degenerateVector
  rw [h, unit_vector_000]

theorem check_degenTri : degenTri.check_triangle = .error .degenerateVector := by
  unfold Triangle.check_triangle
  rw [if_neg (by simp [degenTri]), calc_degenTri]

theorem add_degenTri (m : TriangleMesh) :
    m.add_triangle degenTri = .error .degenerateVector := by
  unfold TriangleMesh.add_triangle
  rw [check_degenTri]

/-! ## Evaluation lemmas for `stod` on the concrete tokens -/

theorem stod_zero : stod "0" = some 0 := by simp [stod, digitsToNat]

theorem stod_one : stod "1" = some 1 := by simp [stod, digitsToNat]

/-! ## Structural lemmas about the parsing loop -/

theorem loop_nil (st : PState) (tri : Triangle) (mesh : TriangleMesh) :
    loopAux [] st tri mesh = .ok (st, mesh) := by
  rw [loopAux.eq_def]

/-- Once the machine is in `END`, the rest of the token stream is
discarded and the loop exits with the mesh built so far. -/
theorem loop_end_state (toks : List String) (tri : Triangle) (mesh : TriangleMesh) :
    loopAux toks .END tri mesh = .ok (.END, mesh) := by
  cases toks <;> simp [loopAux]

/-- In the `OUTSIDE` state every token other than `solid` is consumed
silently; if no token is `solid` the loop runs off the end of the
stream still in `OUTSIDE`. -/
theorem loop_outside_skip (toks : List String) (h : ∀ s ∈ toks, s ≠ "solid")
    (tri : Triangle) (mesh : TriangleMesh) :
    loopAux toks .OUTSIDE tri mesh = .ok (.OUTSIDE, mesh) := by
  induction toks with
  | nil => exact loop_nil _ _ _
  | cons tok rest ih =>
    have ht : ¬ (tok = "solid") := h tok (by simp)
    rw [loopAux.eq_def]
    simp only [if_neg ht]
    exact ih fun s hs => h s (by simp [hs])

/-- Skipping a `solid`-free prefix in the `OUTSIDE` state leaves the
parse exactly where it would be without that prefix. -/
theorem loop_outside_skip_append (junk rest : List String)
    (h : ∀ s ∈ junk, s ≠ "solid") (tri : Triangle) (mesh : TriangleMesh) :
    loopAux (junk ++ rest) .OUTSIDE tri mesh = loopAux rest .OUTSIDE tri mesh := by
  induction junk with
  | nil => rfl
  | cons tok junk2 ih =>
    have ht : ¬ (tok = "solid") := h tok (by simp)
    rw [List.cons_append]
    conv_lhs => rw [loopAux.eq_def]
    simp only [if_neg ht]
    exact ih fun s hs => h s (by simp [hs])

theorem parse_coordinates_ok_length (l : List String) (i : Nat) (p : Point)
    (h : parse_coordinates l i = .ok p) : i + 3 ≤ l.length := by
  unfold parse_coordinates at h
  split at h
  case _ a b c tail heq =>
    have := congrArg List.length heq
    simp [List.length_drop] at this
    omega
  case _ => exact absurd h (by simp)

/-- Successful coordinate parses are preserved when the token vector is
extended on the right (the three inspected tokens do not change). -/
theorem parse_coordinates_append (l l2 : List String) (i : Nat) (p : Point)
    (h : parse_coordinates l i = .ok p) : parse_coordinates (l ++ l2) i = .ok p := by
  have hlen := parse_coordinates_ok_length l i p h
  unfold parse_coordinates at h ⊢
  rw [List.drop_append_of_le_length (by omega)]
  split at h
  case _ a b c tail heq => rw [heq]; simpa using h
  case _ => exact absurd h (by simp)

/-! ## One-step transition lemmas, one per branch of the state machine -/

theorem step_outside_solid_nil (tri : Triangle) (mesh : TriangleMesh) :
    loopAux ["solid"] .OUTSIDE tri mesh
      = .error (.grammarViolation "could not parse solids name") := by
  rw [loopAux.eq_def]
  simp

theorem step_outside_solid_noname (rest2 : List String) (tri : Triangle) (mesh : TriangleMesh) :
    loopAux ("solid" :: "facet" :: rest2) .OUTSIDE tri mesh
      = loopAux ("facet" :: rest2) .SOLID tri (mesh.set_name "no name") := by
  conv_lhs => rw [loopAux.eq_def]
  simp

theorem step_outside_solid_name (nm : String) (rest2 : List String) (hf : ¬ (nm = "facet"))
    (tri : Triangle) (mesh : TriangleMesh) :
    loopAux ("solid" :: nm :: rest2) .OUTSIDE tri mesh
      = loopAux rest2 .SOLID tri (mesh.set_name nm) := by
  conv_lhs => rw [loopAux.eq_def]
  simp [hf]

theorem step_outside_other (tok : String) (rest : List String) (ht : ¬ (tok = "solid"))
    (tri : Triangle) (mesh : TriangleMesh) :
    loopAux (tok :: rest) .OUTSIDE tri mesh = loopAux rest .OUTSIDE tri mesh := by
  conv_lhs => rw [loopAux.eq_def]
  simp [ht]

theorem step_solid_facet (rest : List String) (tri : Triangle) (mesh : TriangleMesh) :
    loopAux ("facet" :: rest) .SOLID tri mesh = loopAux rest .FACET tri mesh := by
  conv_lhs => rw [loopAux.eq_def]
  simp

theorem step_solid_endsolid (rest : List String) (tri : Triangle) (mesh : TriangleMesh) :
    loopAux ("endsolid" :: rest) .SOLID tri mesh = loopAux rest .END tri mesh := by
  conv_lhs => rw [loopAux.eq_def]
  simp

theorem step_solid_other (tok : String) (rest : List String)
    (h1 : ¬ (tok = "facet")) (h2 : ¬ (tok = "endsolid"))
    (tri : Triangle) (mesh : TriangleMesh) :
    loopAux (tok :: rest) .SOLID tri mesh
      = .error (.grammarViolation "keyword facet or keyword endsolid expected, but not found") := by
  rw [loopAux.eq_def]
  simp [h1, h2]

theorem step_facet_normal (rest : List String) (tri : Triangle) (mesh : TriangleMesh) :
    loopAux ("normal" :: rest) .FACET tri mesh = loopAux rest .NORMAL tri mesh := by
  conv_lhs => rw [loopAux.eq_def]
  simp

theorem step_facet_endfacet (rest : List String) (tri : Triangle) (mesh : TriangleMesh) :
    loopAux ("endfacet" :: rest) .FACET tri mesh = loopAux rest .SOLID tri mesh := by
  conv_lhs => rw [loopAux.eq_def]
  simp

theorem step_facet_other (tok : String) (rest : List String)
    (h1 : ¬ (tok = "normal")) (h2 : ¬ (tok = "endfacet"))
    (tri : Triangle) (mesh : TriangleMesh) :
    loopAux (tok :: rest) .FACET tri mesh
      = .error (.grammarViolation "double keyword facet normal is not complete") := by
  rw [loopAux.eq_def]
  simp [h1, h2]

theorem step_normal_pc_err (tok : String) (rest : List String) (e : Err)
    (hpc : parse_coordinates (tok :: rest) 0 = .error e)
    (tri : Triangle) (mesh : TriangleMesh) :
    loopAux (tok :: rest) .NORMAL tri mesh = .error e := by
  rw [loopAux.eq_def]
  simp [hpc]

theorem step_normal_sf_err (tok : String) (rest : List String) (p : Point) (e : Err)
    (hpc : parse_coordinates (tok :: rest) 0 = .ok p)
    (tri : Triangle) (hsf : tri.set_facet_normal p = .error e) (mesh : TriangleMesh) :
    loopAux (tok :: rest) .NORMAL tri mesh = .error e := by
  rw [loopAux.eq_def]
  simp [hpc, hsf]

theorem step_normal_ok (tok : String) (rest : List String) (p : Point)
    (hpc : parse_coordinates (tok :: rest) 0 = .ok p)
    (tri tri2 : Triangle) (hsf : tri.set_facet_normal p = .ok tri2) (mesh : TriangleMesh) :
    loopAux (tok :: rest) .NORMAL tri mesh
      = loopAux ((tok :: rest).drop 3) .NORMAL_COORD tri2 mesh := by
  conv_lhs => rw [loopAux.eq_def]
  simp [hpc, hsf]

theorem step_nc_outer (rest : List String) (tri : Triangle) (mesh : TriangleMesh) :
    loopAux ("outer" :: rest) .NORMAL_COORD tri mesh = loopAux rest .OUTER tri mesh := by
  conv_lhs => rw [loopAux.eq_def]
  simp

theorem step_nc_other (tok : String) (rest : List String) (h1 : ¬ (tok = "outer"))
    (tri : Triangle) (mesh : TriangleMesh) :
    loopAux (tok :: rest) .NORMAL_COORD tri mesh
      = .error (.grammarViolation "keyword outer loop is not complete or missing") := by
  rw [loopAux.eq_def]
  simp [h1]

theorem step_outer_loop (rest : List String) (tri : Triangle) (mesh : TriangleMesh) :
    loopAux ("loop" :: rest) .OUTER tri mesh = loopAux rest .LOOP tri mesh := by
  conv_lhs => rw [loopAux.eq_def]
  simp

theorem step_outer_other (tok : String) (rest : List String) (h1 : ¬ (tok = "loop"))
    (tri : Triangle) (mesh : TriangleMesh) :
    loopAux (tok :: rest) .OUTER tri mesh
      = .error (.grammarViolation "keyword outer loop is not complete or missing") := by
  rw [loopAux.eq_def]
  simp [h1]

theorem step_loop_vertex_pc_err (rest : List String) (e : Err)
    (hpc : parse_coordinates ("vertex" :: rest) 1 = .error e)
    (tri : Triangle) (mesh : TriangleMesh) :
    loopAux ("vertex" :: rest) .LOOP tri mesh = .error e := by
  rw [loopAux.eq_def]
  simp [hpc]

theorem step_loop_vertex_av_err (rest : List String) (v : Point) (e : Err)
    (hpc : parse_coordinates ("vertex" :: rest) 1 = .ok v)
    (tri : Triangle) (hav : tri.add_vertex v = .error e) (mesh : TriangleMesh) :
    loopAux ("vertex" :: rest) .LOOP tri mesh = .error e := by
  rw [loopAux.eq_def]
  simp [hpc, hav]

theorem step_loop_vertex_ok (rest : List String) (v : Point)
    (hpc : parse_coordinates ("vertex" :: rest) 1 = .ok v)
    (tri tri2 : Triangle) (hav : tri.add_vertex v = .ok tri2) (mesh : TriangleMesh) :
    loopAux ("vertex" :: rest) .LOOP tri mesh
      = loopAux (("vertex" :: rest).drop 4) .LOOP tri2 mesh := by
  conv_lhs => rw [loopAux.eq_def]
  simp [hpc, hav]

theorem step_loop_endloop_chk_err (rest : List String) (e : Err)
    (tri : Triangle) (hck : tri.check_triangle = .error e) (mesh : TriangleMesh) :
    loopAux ("endloop" :: rest) .LOOP tri mesh = .error e := by
  rw [loopAux.eq_def]
  simp [hck]

theorem step_loop_endloop_invalid (rest : List String)
    (tri : Triangle) (hck : tri.check_triangle = .ok false) (mesh : TriangleMesh) :
    loopAux ("endloop" :: rest) .LOOP tri mesh = .error .invalidTriangle := by
  rw [loopAux.eq_def]
  simp [hck]

theorem step_loop_endloop_add_err (rest : List String) (e : Err)
    (tri : Triangle) (hck : tri.check_triangle = .ok true)
    (mesh : TriangleMesh) (had : mesh.add_triangle tri = .error e) :
    loopAux ("endloop" :: rest) .LOOP tri mesh = .error e := by
  rw [loopAux.eq_def]
  simp [hck, had]

theorem step_loop_endloop_ok (rest : List String)
    (tri : Triangle) (hck : tri.check_triangle = .ok true)
    (mesh mesh2 : TriangleMesh) (had : mesh.add_triangle tri = .ok mesh2) :
    loopAux ("endloop" :: rest) .LOOP tri mesh
      = loopAux rest .FACET tri.clear_vertices mesh2 := by
  conv_lhs => rw [loopAux.eq_def]
  simp [hck, had]

theorem step_loop_other (tok : String) (rest : List String)
    (h1 : ¬ (tok = "vertex")) (h2 : ¬ (tok = "endloop"))
    (tri : Triangle) (mesh : TriangleMesh) :
    loopAux (tok :: rest) .LOOP tri mesh
      = .error (.grammarViolation "invalid outer loop segment") := by
  rw [loopAux.eq_def]
  simp [h1, h2]

/-! ## A successful parse is insensitive to tokens beyond the first
`endsolid` (the `END` state discards them) -/

theorem loop_append_nil (t2 : List String) (st : PState) (tri : Triangle)
    (mesh m : TriangleMesh) (h : loopAux [] st tri mesh = .ok (.END, m)) :
    loopAux ([] ++ t2) st tri mesh = .ok (.END, m) := by
  rw [loop_nil] at h
  simp only [Except.ok.injEq, Prod.mk.injEq] at h
  obtain ⟨h1, h2⟩ := h
  subst h1
  subst h2
  exact loop_end_state t2 tri mesh

theorem loop_append_aux (t2 : List String) :
    ∀ (n : Nat) (t1 : List String), t1.length ≤ n →
    ∀ (st : PState) (tri : Triangle) (mesh m : TriangleMesh),
      loopAux t1 st tri mesh = .ok (.END, m) →
      loopAux (t1 ++ t2) st tri mesh = .ok (.END, m) := by
  intro n
  induction n with
  | zero =>
    intro t1 hlen st tri mesh m h
    have ht1 : t1 = [] := List.eq_nil_of_length_eq_zero (by omega)
    subst ht1
    exact loop_append_nil t2 st tri mesh m h
  | succ n ih =>
    intro t1 hlen st tri mesh m h
    cases t1 with
    | nil => exact loop_append_nil t2 st tri mesh m h
    | cons tok rest =>
      have hlen2 : rest.length ≤ n := by simp at hlen; omega
      cases st with
      | OUTSIDE =>
        by_cases hs : tok = "solid"
        · subst hs
          cases rest with
          | nil =>
            rw [step_outside_solid_nil] at h
            exact absurd h (by simp)
          | cons nm rest2 =>
            by_cases hf : nm = "facet"
            · subst hf
              rw [step_outside_solid_noname] at h
              rw [List.cons_append, List.cons_append, step_outside_solid_noname]
              exact ih _ hlen2 _ _ _ _ h
            · rw [step_outside_solid_name nm rest2 hf] at h
              rw [List.cons_append, List.cons_append, step_outside_solid_name nm (rest2 ++ t2) hf]
              exact ih _ (by simp at hlen2 ⊢; omega) _ _ _ _ h
        · rw [step_outside_other tok rest hs] at h
          rw [List.cons_append, step_outside_other tok (rest ++ t2) hs]
          exact ih _ hlen2 _ _ _ _ h
      | SOLID =>
        by_cases h1 : tok = "facet"
        · subst h1
          rw [step_solid_facet] at h
          rw [List.cons_append, step_solid_facet]
          exact ih _ hlen2 _ _ _ _ h
        · by_cases h2 : tok = "endsolid"
          · subst h2
            rw [step_solid_endsolid] at h
            rw [List.cons_append, step_solid_endsolid]
            exact ih _ hlen2 _ _ _ _ h
          · rw [step_solid_other tok rest h1 h2] at h
            exact absurd h (by simp)
      | FACET =>
        by_cases h1 : tok = "normal"
        · subst h1
          rw [step_facet_normal] at h
          rw [List.cons_append, step_facet_normal]
          exact ih _ hlen2 _ _ _ _ h
        · by_cases h2 : tok = "endfacet"
          · subst h2
            rw [step_facet_endfacet] at h
            rw [List.cons_append, step_facet_endfacet]
            exact ih _ hlen2 _ _ _ _ h
          · rw [step_facet_other tok rest h1 h2] at h
            exact absurd h (by simp)
      | NORMAL =>
        cases hpc : parse_coordinates (tok :: rest) 0 with
        | error e =>
          rw [step_normal_pc_err tok rest e hpc] at h
          exact absurd h (by simp)
        | ok p =>
          cases hsf : tri.set_facet_normal p with
          | error e =>
            rw [step_normal_sf_err tok rest p e hpc tri hsf] at h
            exact absurd h (by simp)
          | ok tri2 =>
            rw [step_normal_ok tok rest p hpc tri tri2 hsf] at h
            have hlen3 : 3 ≤ (tok :: rest).length := by
              have := parse_coordinates_ok_length _ _ _ hpc
              omega
            have hpc2 : parse_coordinates (tok :: (rest ++ t2)) 0 = .ok p := by
              have := parse_coordinates_append _ t2 _ _ hpc
              simpa using this
            rw [List.cons_append, step_normal_ok tok (rest ++ t2) p hpc2 tri tri2 hsf]
            have hdrop : (tok :: (rest ++ t2)).drop 3 = ((tok :: rest).drop 3) ++ t2 := by
              rw [← List.cons_append, List.drop_append_of_le_length hlen3]
            rw [hdrop]
            refine ih _ ?_ _ _ _ _ h
            simp only [List.length_drop, List.length_cons]
            omega
      | NORMAL_COORD =>
        by_cases h1 : tok = "outer"
        · subst h1
          rw [step_nc_outer] at h
          rw [List.cons_append, step_nc_outer]
          exact ih _ hlen2 _ _ _ _ h
        · rw [step_nc_other tok rest h1] at h
          exact absurd h (by simp)
      | OUTER =>
        by_cases h1 : tok = "loop"
        · subst h1
          rw [step_outer_loop] at h
          rw [List.cons_append, step_outer_loop]
          exact ih _ hlen2 _ _ _ _ h
        · rw [step_outer_other tok rest h1] at h
          exact absurd h (by simp)
      | LOOP =>
        by_cases h1 : tok = "vertex"
        · subst h1
          cases hpc : parse_coordinates ("vertex" :: rest) 1 with
          | error e =>
            rw [step_loop_vertex_pc_err rest e hpc] at h
            exact absurd h (by simp)
          | ok v =>
            cases hav : tri.add_vertex v with
            | error e =>
              rw [step_loop_vertex_av_err rest v e hpc tri hav] at h
              exact absurd h (by simp)
            | ok tri2 =>
              rw [step_loop_vertex_ok rest v hpc tri tri2 hav] at h
              have hlen4 : 4 ≤ ("vertex" :: rest).length := by
                have := parse_coordinates_ok_length _ _ _ hpc
                omega
              have hpc2 : parse_coordinates ("vertex" :: (rest ++ t2)) 1 = .ok v := by
                have := parse_coordinates_append _ t2 _ _ hpc
                simpa using this
              rw [List.cons_append, step_loop_vertex_ok (rest ++ t2) v hpc2 tri tri2 hav]
              have hdrop : ("vertex" :: (rest ++ t2)).drop 4 = (("vertex" :: rest).drop 4) ++ t2 := by
                rw [← List.cons_append, List.drop_append_of_le_length hlen4]
              rw [hdrop]
              refine ih _ ?_ _ _ _ _ h
              simp only [List.length_drop, List.length_cons]
              omega
        · by_cases h2 : tok = "endloop"
          · subst h2
            cases hck : tri.check_triangle with
            | error e =>
              rw [step_loop_endloop_chk_err rest e tri hck] at h
              exact absurd h (by simp)
            | ok b =>
              cases b with
              | false =>
                rw [step_loop_endloop_invalid rest tri hck] at h
                exact absurd h (by simp)
              | true =>
                cases had : mesh.add_triangle tri with
                | error e =>
                  rw [step_loop_endloop_add_err rest e tri hck mesh had] at h
                  exact absurd h (by simp)
                | ok mesh2 =>
                  rw [step_loop_endloop_ok rest tri hck mesh mesh2 had] at h
                  rw [List.cons_append, step_loop_endloop_ok (rest ++ t2) tri hck mesh mesh2 had]
                  exact ih _ hlen2 _ _ _ _ h
          · rw [step_loop_other tok rest h1 h2] at h
            exact absurd h (by simp)
      | END =>
        rw [loop_end_state] at h
        simp only [Except.ok.injEq, Prod.mk.injEq, true_and] at h
        subst h
        exact loop_end_state _ _ _

/-- Extending a successfully parsed token stream on the right does not
change the outcome: the appended tokens are never inspected. -/
theorem loop_append (t1 t2 : List String) (st : PState) (tri : Triangle)
    (mesh m : TriangleMesh) (h : loopAux t1 st tri mesh = .ok (.END, m)) :
    loopAux (t1 ++ t2) st tri mesh = .ok (.END, m) :=
  loop_append_aux t2 t1.length t1 le_rfl st tri mesh m h

/-! ## `mk`-form restatements used by `simp` when evaluating whole runs -/

theorem check_goodTri_mk :
    Triangle.check_triangle ⟨[⟨0, 0, 0⟩, ⟨1, 0, 0⟩, ⟨0, 1, 0⟩], ⟨0, 0, 1⟩⟩ = .ok true :=
  check_goodTri

theorem add_goodTri_mk (m : TriangleMesh) :
    m.add_triangle ⟨[⟨0, 0, 0⟩, ⟨1, 0, 0⟩, ⟨0, 1, 0⟩], ⟨0, 0, 1⟩⟩ =
      .ok { m with
        triangles := m.triangles ++ [⟨[⟨0, 0, 0⟩, ⟨1, 0, 0⟩, ⟨0, 1, 0⟩], ⟨0, 0, 1⟩⟩],
        triangle_count := m.triangle_count + 1 } :=
  add_goodTri m

open Classical in
/-- When the vertex count is 3 and `calculate_facet_normal` returns a
point, `check_triangle` reduces to the tolerance comparison. -/
theorem check_triangle_eval (t : Triangle) (h3 : t.vertices.length = 3) (p : Point)
    (hp : t.calculate_facet_normal = .ok p) :
    t.check_triangle = if Point.ne p t.facet_normal then .ok false else .ok true := by
  unfold Triangle.check_triangle
  rw [if_neg (by omega), hp]

theorem check_triangle_err (t : Triangle) (h3 : t.vertices.length = 3) (e : Err)
    (hp : t.calculate_facet_normal = .error e) : t.check_triangle = .error e := by
  unfold Triangle.check_triangle
  rw [if_neg (by omega), hp]

theorem check_triangle_count (t : Triangle) (h3 : t.vertices.length ≠ 3) :
    t.check_triangle = .ok false := by
  unfold Triangle.check_triangle
  rw [if_pos h3]

/-! ## The claims -/

/-- Claim C1 (code bug): the claim states that after `set_facet_normal`
the stored facet normal is always unit length, a normal of magnitude
0.5 being renormalized first.  The source's acceptance test
`(1.0 - fabs(norm(normal))) < EPS` lacks the absolute value around the
difference, so a normal of magnitude 2 passes the test and is stored
unchanged, with norm 2 — contradicting the claim and the header
comments (`facet_normal ... is ensured to be normalized`).  This
theorem evaluates the code at the failing input: (0,0,2) is stored
as-is and is not within epsilon of unit length, while (0.5,0,0) is
indeed renormalized. -/
theorem claim_C1_code_eval :
    Triangle.set_facet_normal Triangle.init ⟨0, 0, 2⟩
        = .ok { Triangle.init with facet_normal := ⟨0, 0, 2⟩ } ∧
    norm (⟨0, 0, 2⟩ : Point) = 2 ∧
    ¬ (|1 - norm (⟨0, 0, 2⟩ : Point)| < EPS) ∧
    Triangle.set_facet_normal Triangle.init ⟨0.5, 0, 0⟩
        = .ok { Triangle.init with facet_normal := ⟨1, 0, 0⟩ } := by
  refine ⟨?_, pt_norm_002, ?_, ?_⟩
  · exact set_facet_normal_as_is _ _ (by rw [pt_norm_002]; norm_num [EPS])
  · rw [pt_norm_002]
    norm_num [EPS]
  · have h1 : ¬ (1 - |norm (⟨0.5, 0, 0⟩ : Point)| < EPS) := by
      rw [abs_of_nonneg (pt_norm_nonneg _), pt_norm_half]; norm_num [EPS]
    have h2 : ¬ (|norm (⟨0.5, 0, 0⟩ : Point)| < EPS) := by
      rw [abs_of_nonneg (pt_norm_nonneg _), pt_norm_half]; norm_num [EPS]
    rw [set_facet_normal_renorm _ _ h1 h2, pt_norm_half]
    norm_num

/-- Claim C2, counterexample: the claim says every input whose first
token is not `solid` fails with a grammar violation raised in the
OUTSIDE state; but the OUTSIDE state silently skips such tokens, and
this input (first token `bare`) parses successfully. -/
theorem claim_C2_counterexample :
    ("bare" : String) ≠ "solid" ∧
    to_triangle_mesh ["bare", "solid", "A", "endsolid"]
      = .ok { TriangleMesh.init with name := "A" } := by
  constructor
  · simp
  · simp [to_triangle_mesh, loopAux, TriangleMesh.set_name, TriangleMesh.init]

/-- Claim C2 (amended): an empty token sequence (e.g. a whitespace-only
file) fails with UnterminatedSolid — the loop exhausts the stream in
the non-terminal OUTSIDE state and the post-loop `state != END` check
fires — and so does any input none of whose tokens is `solid`; tokens
before the first `solid` are skipped silently rather than raising a
grammar violation. -/
theorem claim_C2_amended :
    to_triangle_mesh [] = .error .unterminatedSolid ∧
    (∀ toks : List String, (∀ s ∈ toks, s ≠ "solid") →
      to_triangle_mesh toks = .error .unterminatedSolid) := by
  refine ⟨?_, ?_⟩
  · simp [to_triangle_mesh, loopAux]
  · intro toks h
    unfold to_triangle_mesh
    rw [loop_outside_skip toks h]
    simp

theorem claim_C2_witness :
    (∀ s ∈ ["x"], s ≠ "solid") ∧ to_triangle_mesh ["x"] = .error .unterminatedSolid :=
  ⟨by simp, claim_C2_amended.2 ["x"] (by simp)⟩

/-- Claim C3 (confirmed): `to_triangle_mesh` is atomic in its output
parameter — the caller's mesh binding is replaced by the working mesh
exactly when the loop traverses to the END state; on every failure the
caller's binding is unchanged and carries no partial mesh. -/
theorem claim_C3 : ∀ (toks : List String) (mesh0 : TriangleMesh),
    (∃ m, loopAux toks .OUTSIDE Triangle.init TriangleMesh.init = .ok (.END, m) ∧
      to_triangle_mesh_out toks mesh0 = (m, none)) ∨
    (∃ e, to_triangle_mesh toks = .error e ∧
      to_triangle_mesh_out toks mesh0 = (mesh0, some e)) := by
  intro toks mesh0
  cases hl : loopAux toks .OUTSIDE Triangle.init TriangleMesh.init with
  | error e =>
    right
    exact ⟨e, by simp [to_triangle_mesh, hl], by simp [to_triangle_mesh_out, to_triangle_mesh, hl]⟩
  | ok sm =>
    obtain ⟨st, m⟩ := sm
    by_cases hst : st = PState.END
    · subst hst
      left
      exact ⟨m, rfl, by simp [to_triangle_mesh_out, to_triangle_mesh, hl]⟩
    · right
      exact ⟨.unterminatedSolid, by simp [to_triangle_mesh, hl, hst],
        by simp [to_triangle_mesh_out, to_triangle_mesh, hl, hst]⟩

/-- Claim C4, counterexample: the claim says `check_triangle` never
throws; on a triangle with three collinear vertices the call to
`calculate_facet_normal` normalizes the zero cross product and the
DegenerateVector error escapes `check_triangle`. -/
theorem claim_C4_counterexample :
    Triangle.check_triangle degenTri = .error .degenerateVector ∧
    ∀ b : Bool, Triangle.check_triangle degenTri ≠ .ok b := by
  refine ⟨check_degenTri, ?_⟩
  intro b hb
  rw [check_degenTri] at hb
  exact absurd hb (by simp)

/-- Claim C4 (amended): `check_triangle` returns invalid when the
vertex count is not 3; when the count is 3 it propagates any error of
`calculate_facet_normal` (DegenerateVector on a near-zero cross
product), and otherwise returns valid exactly when the computed normal
equals the stored one under the tolerance-based equality. -/
theorem claim_C4_amended : ∀ t : Triangle,
    (t.vertices.length ≠ 3 → t.check_triangle = .ok false) ∧
    (t.vertices.length = 3 →
      (∀ e, t.calculate_facet_normal = .error e → t.check_triangle = .error e) ∧
      (∀ p, t.calculate_facet_normal = .ok p →
        (t.check_triangle = .ok true ↔ Point.eq p t.facet_normal) ∧
        (t.check_triangle = .ok false ↔ ¬ Point.eq p t.facet_normal))) := by
  intro t
  refine ⟨check_triangle_count t, fun h3 => ⟨check_triangle_err t h3, fun p hp => ?_⟩⟩
  rw [check_triangle_eval t h3 p hp]
  by_cases hq : Point.eq p t.facet_normal
  · have hne : ¬ Point.ne p t.facet_normal := not_not_intro hq
    rw [if_neg hne]
    constructor <;> simp [hq]
  · have hne : Point.ne p t.facet_normal := hq
    rw [if_pos hne]
    constructor <;> simp [hq]

theorem claim_C4_witness :
    Triangle.init.vertices.length ≠ 3 ∧
    Triangle.check_triangle Triangle.init = .ok false :=
  ⟨by simp [Triangle.init], (claim_C4_amended Triangle.init).1 (by simp [Triangle.init])⟩

/-- Claim C5 (confirmed): `parse_coordinates` fails with the
coordinate-parse error when fewer than 3 tokens remain from the start
index onward, or when any of the three tokens is not a valid number
for `stod`; otherwise it returns the `Point` of the three parsed
values. -/
theorem claim_C5 : ∀ (toks : List String) (i : Nat),
    (toks.length < i + 3 → parse_coordinates toks i = .error .coordinateParseError) ∧
    (∀ a b c tail, toks.drop i = a :: b :: c :: tail →
      ((stod a = none ∨ stod b = none ∨ stod c = none) →
        parse_coordinates toks i = .error .coordinateParseError) ∧
      (∀ x y z : ℚ, stod a = some x → stod b = some y → stod c = some z →
        parse_coordinates toks i = .ok ⟨(x : ℝ), (y : ℝ), (z : ℝ)⟩)) := by
  intro toks i
  constructor
  · intro hlen
    unfold parse_coordinates
    split
    case _ a b c tail heq =>
      exfalso
      have := congrArg List.length heq
      simp [List.length_drop] at this
      omega
    case _ => rfl
  · intro a b c tail heq
    constructor
    · intro hbad
      rcases ha : stod a with _ | x
      · simp [parse_coordinates, heq, ha]
      · rcases hb : stod b with _ | y
        · simp [parse_coordinates, heq, ha, hb]
        · rcases hc : stod c with _ | z
          · simp [parse_coordinates, heq, ha, hb, hc]
          · exfalso
            rcases hbad with hh | hh | hh <;> simp_all
    · intro x y z hx hy hz
      simp [parse_coordinates, heq, hx, hy, hz]

theorem claim_C5_witness :
    (["a"].length < 0 + 3) ∧
    parse_coordinates ["a"] 0 = .error .coordinateParseError :=
  ⟨by simp, (claim_C5 ["a"] 0).1 (by simp)⟩

/-- Claim C6, counterexample: the claim says `add_triangle` fails with
InvalidTriangle whenever the check does not report valid; on the
degenerate triangle the check itself throws DegenerateVector and
`add_triangle` propagates that error instead. -/
theorem claim_C6_counterexample :
    TriangleMesh.init.add_triangle degenTri = .error .degenerateVector ∧
    Err.degenerateVector ≠ Err.invalidTriangle :=
  ⟨add_degenTri _, by simp⟩

/-- Claim C6 (amended): `add_triangle` appends the triangle and
increments the count exactly when `check_triangle` reports valid;
when the check reports invalid it fails with InvalidTriangle, and when
the check throws, that error propagates; in every failure case the
mesh is unchanged (no new mesh value is produced), and the maintained
count equals the length of the triangle sequence after every
operation. -/
theorem claim_C6_amended :
    TriangleMesh.init.triangle_count = (TriangleMesh.init.triangles.length : ℤ) ∧
    (∀ (m : TriangleMesh) (n : String), (m.set_name n).triangle_count = m.triangle_count ∧
      (m.set_name n).triangles = m.triangles) ∧
    (∀ (m : TriangleMesh) (t : Triangle),
      (t.check_triangle = .ok true →
        m.add_triangle t = .ok { m with triangles := m.triangles ++ [t],
                                        triangle_count := m.triangle_count + 1 }) ∧
      (t.check_triangle = .ok false → m.add_triangle t = .error .invalidTriangle) ∧
      (∀ e, t.check_triangle = .error e → m.add_triangle t = .error e) ∧
      (m.triangle_count = (m.triangles.length : ℤ) →
        ∀ m2, m.add_triangle t = .ok m2 →
          m2.triangle_count = (m2.triangles.length : ℤ))) := by
  refine ⟨by simp [TriangleMesh.init], fun m n => ⟨rfl, rfl⟩, fun m t => ⟨?_, ?_, ?_, ?_⟩⟩
  · intro hck
    unfold TriangleMesh.add_triangle
    rw [hck]
  · intro hck
    unfold TriangleMesh.add_triangle
    rw [hck]
  · intro e hck
    unfold TriangleMesh.add_triangle
    rw [hck]
  · intro hinv m2 hadd
    unfold TriangleMesh.add_triangle at hadd
    cases hck : t.check_triangle with
    | error e =>
      rw [hck] at hadd
      exact absurd hadd (by simp)
    | ok b =>
      cases b with
      | false =>
        rw [hck] at hadd
        exact absurd hadd (by simp)
      | true =>
        rw [hck] at hadd
        simp only [Except.ok.injEq] at hadd
        subst hadd
        simp [List.length_append, hinv]

theorem claim_C6_witness :
    Triangle.check_triangle goodTri = .ok true ∧
    TriangleMesh.init.add_triangle goodTri
      = .ok { TriangleMesh.init with
              triangles := TriangleMesh.init.triangles ++ [goodTri],
              triangle_count := TriangleMesh.init.triangle_count + 1 } :=
  ⟨check_goodTri, (claim_C6_amended.2.2 TriangleMesh.init goodTri).1 check_goodTri⟩

/-- Claim C7 (confirmed): whenever the token stream is exhausted with
the machine in any state other than END, `to_triangle_mesh` fails with
UnterminatedSolid; in particular the stream of a file with `solid`,
one well-formed facet, and no `endsolid` fails this way. -/
theorem claim_C7 :
    (∀ (toks : List String) (st : PState) (m : TriangleMesh),
      loopAux toks .OUTSIDE Triangle.init TriangleMesh.init = .ok (st, m) →
      st ≠ .END → to_triangle_mesh toks = .error .unterminatedSolid) ∧
    to_triangle_mesh exNoEnd = .error .unterminatedSolid := by
  constructor
  · intro toks st m hl hst
    simp [to_triangle_mesh, hl, hst]
  · simp [to_triangle_mesh, exNoEnd, loopAux, parse_coordinates, stod_zero, stod_one,
      set_facet_normal_001, Triangle.add_vertex, Triangle.init, check_goodTri_mk,
      add_goodTri_mk, Triangle.clear_vertices, TriangleMesh.set_name, TriangleMesh.init]

theorem claim_C7_witness :
    loopAux [] .OUTSIDE Triangle.init TriangleMesh.init = .ok (.OUTSIDE, TriangleMesh.init) ∧
    PState.OUTSIDE ≠ PState.END ∧
    to_triangle_mesh [] = .error .unterminatedSolid :=
  ⟨loop_nil _ _ _, by simp,
   claim_C7.1 [] .OUTSIDE TriangleMesh.init (loop_nil _ _ _) (by simp)⟩

/-- Claim C8 (confirmed): a successfully parsed stream followed by any
further tokens (e.g. a second `solid ... endsolid` block) yields
exactly the first parse's mesh — the extra tokens are never inspected,
because the END state discards the rest of the stream. -/
theorem claim_C8 :
    (∀ (t1 : List String) (m : TriangleMesh), to_triangle_mesh t1 = .ok m →
      ∀ t2 : List String, to_triangle_mesh (t1 ++ t2) = .ok m) ∧
    to_triangle_mesh (["solid", "A", "endsolid"] ++ ["solid", "B", "endsolid"])
      = .ok { TriangleMesh.init with name := "A" } := by
  constructor
  · intro t1 m h t2
    unfold to_triangle_mesh at h
    cases hl : loopAux t1 .OUTSIDE Triangle.init TriangleMesh.init with
    | error e =>
      rw [hl] at h
      exact absurd h (by simp)
    | ok sm =>
      obtain ⟨st, m2⟩ := sm
      rw [hl] at h
      by_cases hst : st = PState.END
      · subst hst
        simp at h
        subst h
        have := loop_append t1 t2 _ _ _ _ hl
        simp [to_triangle_mesh, this]
      · simp [hst] at h
  · simp [to_triangle_mesh, loopAux, TriangleMesh.set_name, TriangleMesh.init]

theorem claim_C8_witness :
    to_triangle_mesh ["solid", "A", "endsolid"]
      = .ok { TriangleMesh.init with name := "A" } ∧
    to_triangle_mesh (["solid", "A", "endsolid"] ++ ["junk"])
      = .ok { TriangleMesh.init with name := "A" } := by
  have h1 : to_triangle_mesh ["solid", "A", "endsolid"]
      = .ok { TriangleMesh.init with name := "A" } := by
    simp [to_triangle_mesh, loopAux, TriangleMesh.set_name, TriangleMesh.init]
  exact ⟨h1, claim_C8.1 _ _ h1 ["junk"]⟩

/-- Claim C9, counterexample: the claim's side condition says the
store-as-is test is met by every vector of norm at least 0.999; at
norm exactly 0.999 the test `1.0 - fabs(norm) < EPS` is false
(`1 - 0.999 = 0.001` is not `< 0.001`), the vector is normalized, and
the stored normal (1,0,0) differs from the argument. -/
theorem claim_C9_counterexample :
    norm (⟨0.999, 0, 0⟩ : Point) = 0.999 ∧
    ¬ (1 - |norm (⟨0.999, 0, 0⟩ : Point)| < EPS) ∧
    Triangle.set_facet_normal Triangle.init ⟨0.999, 0, 0⟩
      = .ok { Triangle.init with facet_normal := ⟨1, 0, 0⟩ } ∧
    (⟨1, 0, 0⟩ : Point) ≠ ⟨0.999, 0, 0⟩ := by
  have hn : ¬ (1 - |norm (⟨0.999, 0, 0⟩ : Point)| < EPS) := by
    rw [abs_of_nonneg (pt_norm_nonneg _), pt_norm_0999]; norm_num [EPS]
  have hz : ¬ (|norm (⟨0.999, 0, 0⟩ : Point)| < EPS) := by
    rw [abs_of_nonneg (pt_norm_nonneg _), pt_norm_0999]; norm_num [EPS]
  refine ⟨pt_norm_0999, hn, ?_, ?_⟩
  · rw [set_facet_normal_renorm _ _ hn hz, pt_norm_0999]
    norm_num
  · intro hcontra
    rw [Point.mk.injEq] at hcontra
    norm_num at hcontra

/-- Claim C9 (amended): `set_facet_normal` stores its argument
unchanged, without any normalization, for every Point p satisfying
`1.0 - fabs(norm(p)) < EPS` — a condition met by every vector of norm
strictly greater than 0.999, with no upper bound; e.g. a supplied
normal of magnitude 2 is stored as-is, not unit length. -/
theorem claim_C9_amended :
    (∀ (t : Triangle) (p : Point), 1 - |norm p| < EPS →
      t.set_facet_normal p = .ok { t with facet_normal := p }) ∧
    (∀ p : Point, 0.999 < norm p → 1 - |norm p| < EPS) ∧
    Triangle.set_facet_normal Triangle.init ⟨0, 0, 2⟩
      = .ok { Triangle.init with facet_normal := ⟨0, 0, 2⟩ } := by
  refine ⟨set_facet_normal_as_is, ?_, ?_⟩
  · intro p hp
    rw [abs_of_nonneg (pt_norm_nonneg p)]
    norm_num [EPS] at hp ⊢
    linarith
  · exact set_facet_normal_as_is _ _ (by rw [pt_norm_002]; norm_num [EPS])

theorem claim_C9_witness :
    (1 - |norm (⟨0, 0, 2⟩ : Point)| < EPS) ∧
    Triangle.set_facet_normal Triangle.init ⟨0, 0, 2⟩
      = .ok { Triangle.init with facet_normal := ⟨0, 0, 2⟩ } :=
  ⟨by rw [pt_norm_002]; norm_num [EPS],
   claim_C9_amended.1 Triangle.init ⟨0, 0, 2⟩ (by rw [pt_norm_002]; norm_num [EPS])⟩

/-- Claim C10 (confirmed): in the OUTSIDE state every token other than
`solid` is consumed silently, so a stream whose first `solid` is
preceded by arbitrary other tokens parses exactly as if those leading
tokens were absent. -/
theorem claim_C10 : ∀ (junk rest : List String), (∀ s ∈ junk, s ≠ "solid") →
    to_triangle_mesh (junk ++ rest) = to_triangle_mesh rest := by
  intro junk rest h
  unfold to_triangle_mesh
  rw [loop_outside_skip_append junk rest h]

theorem claim_C10_witness :
    (∀ s ∈ ["hello", "world"], s ≠ "solid") ∧
    to_triangle_mesh (["hello", "world"] ++ ["solid", "A", "endsolid"])
      = to_triangle_mesh ["solid", "A", "endsolid"] :=
  ⟨by simp, claim_C10 ["hello", "world"] ["solid", "A", "endsolid"] (by simp)⟩
